import Mathlib

set_option linter.unusedVariables false

/-!
Verification development for the torch control core of
react-native-torch-nitro.

The repository ships two platform implementations of the same
HybridTorch interface:

* a continuous-intensity implementation (Swift, embedded in the README)
  that maps a discrete 1..10 level onto the 0.1..1.0 AVCaptureDevice
  torch intensity range, and
* a discrete-strength implementation (Kotlin, HybridTorch.kt) that
  passes integer strength levels straight to the camera service and
  learns about state changes through CameraManager.TorchCallback.

Both are shallowly embedded below.  Machine floating point is modelled
by exact rationals; the platform camera primitives are modelled by an
explicit environment record plus a list of issued hardware calls, and
the JS callbacks by a list of emitted events.
-/

/-- Decidable equality for Except results, used to evaluate the models
on concrete inputs. -/
instance {ε α : Type} [DecidableEq ε] [DecidableEq α] :
    DecidableEq (Except ε α) := fun x y =>
  match x, y with
  | .ok a, .ok b =>
      if h : a = b then .isTrue (by rw [h])
      else .isFalse (fun hc => h (by injection hc))
  | .error a, .error b =>
      if h : a = b then .isTrue (by rw [h])
      else .isFalse (fun hc => h (by injection hc))
  | .ok _, .error _ => .isFalse (fun hc => Except.noConfusion hc)
  | .error _, .ok _ => .isFalse (fun hc => Except.noConfusion hc)

namespace Torch

/-- Events delivered to the JS layer through the onStateChanged and
onLevelChanged callback slots. -/
inductive Ev where
  | stateChanged (b : Bool)
  | levelChanged (l : Option ℚ)
  deriving DecidableEq, Repr

/-- True exactly on levelChanged events. -/
def Ev.isLevel : Ev → Bool
  | .levelChanged _ => true
  | .stateChanged _ => false

namespace IOS

/-- iOS fixed number of discrete brightness levels
(private let maxTorchLevel: Double = 10.0). -/
def maxTorchLevel : ℚ := 10

/-- The Swift TorchError enumeration. -/
inductive IosErr where
  | noDevice
  | noTorch
  | failed (msg : String)
  deriving DecidableEq, Repr

/-- The code string the Swift TorchError serializes for JS. -/
def IosErr.code : IosErr → String
  | .noDevice => "NoFlashAvailable"
  | .noTorch => "NoFlashAvailable"
  | .failed _ => "AccessFailed"

/-- Mutable fields of the Swift HybridTorch instance. -/
structure St where
  isTorchOn : Bool
  currentLevel : ℚ
  previousLevel : Option ℚ
  deriving DecidableEq, Repr

/-- Initial field values (false, 1.0, nil). -/
def initSt : St := ⟨false, 1, none⟩

/-- Hardware calls issued against AVCaptureDevice. -/
inductive Hw where
  | setTorchModeOn (lvl : ℚ)
  | torchOff
  deriving DecidableEq, Repr

/-- Platform facts the Swift code reads: device existence, torch
capability and the thermally limited maxAvailableTorchLevel. -/
structure Env where
  hasDevice : Bool
  hasTorch : Bool
  maxAvailableTorchLevel : ℚ
  deriving DecidableEq, Repr

/-- Result of a successful call: new state, emitted events (in call
order) and issued hardware calls. -/
structure Out where
  st : St
  evs : List Ev
  hw : List Hw
  deriving DecidableEq, Repr

/-- Embedding of the private Swift method setTorchMode(_:level:).
Guards device and torch presence, issues the hardware call, updates
currentLevel when an explicit level was passed, then fires
stateChanged on an actual on-off change and levelChanged when the
rounded level differs from the rounded previousLevel. -/
def setTorchMode (env : Env) (enable : Bool) (lvl : Option ℚ) (s : St) :
    Except IosErr Out :=
  if env.hasDevice = false then .error .noDevice
  else if env.hasTorch = false then .error .noTorch
  else
    let maxAvailable := min env.maxAvailableTorchLevel 1
    let torchLevel := lvl.getD (s.currentLevel / maxTorchLevel)
    let clampedLevel := max (1/10) (min maxAvailable torchLevel)
    let hw := if enable then [Hw.setTorchModeOn clampedLevel] else [Hw.torchOff]
    let currentLevel' :=
      if enable then
        match lvl with
        | some l => l * maxTorchLevel
        | none => s.currentLevel
      else s.currentLevel
    let wasOn := s.isTorchOn
    let stateEvs := if wasOn ≠ enable then [Ev.stateChanged enable] else []
    let newLevel : Option ℚ :=
      if enable then some ((round currentLevel' : ℤ) : ℚ) else none
    let roundedPrevious : Option ℚ :=
      s.previousLevel.map (fun p => ((round p : ℤ) : ℚ))
    if roundedPrevious ≠ newLevel then
      .ok ⟨⟨enable, currentLevel', newLevel⟩,
           stateEvs ++ [Ev.levelChanged newLevel], hw⟩
    else
      .ok ⟨⟨enable, currentLevel', s.previousLevel⟩, stateEvs, hw⟩

/-- Swift on(): setTorchMode(true).  Named turnOn because on is a
reserved word in Lean. -/
def turnOn (env : Env) (s : St) : Except IosErr Out :=
  setTorchMode env true none s

/-- Swift off(): setTorchMode(false). -/
def off (env : Env) (s : St) : Except IosErr Out :=
  setTorchMode env false none s

/-- Swift toggle(): setTorchMode(!isTorchOn). -/
def toggle (env : Env) (s : St) : Except IosErr Out :=
  setTorchMode env (!s.isTorchOn) none s

/-- Swift setLevel(level:): guard 1 <= level <= maxTorchLevel, else
throw TorchError.failed; otherwise normalize to level / maxTorchLevel
and delegate to setTorchMode(true, level:). -/
def setLevel (env : Env) (level : ℚ) (s : St) : Except IosErr Out :=
  if 1 ≤ level ∧ level ≤ maxTorchLevel then
    setTorchMode env true (some (level / maxTorchLevel)) s
  else
    .error (.failed "Level must be between 1 and 10")

/-- Swift getMaxLevel(dynamic:): nil without a torch-capable device;
with dynamic == true returns min(maxAvailableTorchLevel, 1.0) scaled
by maxTorchLevel, with no rounding; otherwise the constant 10. -/
def getMaxLevel (env : Env) (dynamic : Option Bool) : Option ℚ :=
  if env.hasDevice = false ∨ env.hasTorch = false then none
  else if dynamic = some true then
    some (min env.maxAvailableTorchLevel 1 * maxTorchLevel)
  else some maxTorchLevel

/-- Swift dispose(): if on, best-effort setTorchMode(false); on a throw
the remaining body is skipped, otherwise previousLevel is cleared. -/
def dispose (env : Env) (s : St) : St :=
  if s.isTorchOn then
    match setTorchMode env false none s with
    | .ok o => { o.st with previousLevel := none }
    | .error _ => s
  else { s with previousLevel := none }

end IOS

namespace Android

/-- The Kotlin TorchException hierarchy plus the raw
IllegalArgumentException the range check throws. -/
inductive AErr where
  | cameraServiceUnavailable
  | apiLevelTooLow
  | noFlashAvailable
  | brightnessControlNotSupported
  | accessFailed (msg : String)
  | illegalArgument (msg : String)
  deriving DecidableEq, Repr

/-- Platform facts the Kotlin code reads: the Android SDK version,
whether the camera service resolves, which camera id ensureCameraId
would pick, the FLASH_INFO_STRENGTH_MAXIMUM_LEVEL characteristic with
its Kotlin default of 1, and whether camera-service calls succeed. -/
structure Env where
  sdkInt : ℕ
  hasManager : Bool
  camera : Option ℕ
  maxStrengthLevel : ℤ
  accessOk : Bool
  deriving DecidableEq, Repr

/-- Mutable fields of the Kotlin HybridTorch instance. -/
structure St where
  isTorchOn : Bool
  previousLevel : Option ℚ
  cameraId : Option ℕ
  deriving DecidableEq, Repr

/-- Initial field values (false, null, null). -/
def initSt : St := ⟨false, none, none⟩

/-- Calls issued against the CameraManager. -/
inductive Hw where
  | setTorchMode (enable : Bool)
  | getCameraCharacteristics
  | turnOnTorchWithStrengthLevel (lvl : ℤ)
  deriving DecidableEq, Repr

/-- True on the calls that drive the torch hardware, false on the
characteristics read. -/
def Hw.isSetCall : Hw → Bool
  | .setTorchMode _ => true
  | .turnOnTorchWithStrengthLevel _ => true
  | .getCameraCharacteristics => false

/-- Result of a Kotlin method: outcome, instance state afterwards and
the camera-service calls issued on the way. -/
structure ARes where
  res : Except AErr Unit
  st : St
  hw : List Hw
  deriving DecidableEq, Repr

/-- Kotlin ensureCameraId(): resolve and cache the camera id once; a
missing camera manager leaves it unresolved. -/
def ensureCameraId (env : Env) (s : St) : St :=
  if s.cameraId.isSome then s
  else if env.hasManager then { s with cameraId := env.camera }
  else s

/-- Kotlin MIN_API_LEVEL = Build.VERSION_CODES.M. -/
def minApiLevel : ℕ := 23

/-- Build.VERSION_CODES.TIRAMISU, the brightness-control threshold. -/
def tiramisu : ℕ := 33

/-- Embedding of the private Kotlin method setTorchMode(enable).
Checks manager, API level and camera, short-circuits when the cached
state already equals the request, and otherwise issues the hardware
call; the instance state is updated only by the torch callback, never
here. -/
def setTorchMode (env : Env) (enable : Bool) (s : St) : ARes :=
  if env.hasManager = false then ⟨.error .cameraServiceUnavailable, s, []⟩
  else if env.sdkInt < minApiLevel then ⟨.error .apiLevelTooLow, s, []⟩
  else
    let s1 := ensureCameraId env s
    match s1.cameraId with
    | none => ⟨.error .noFlashAvailable, s1, []⟩
    | some _ =>
      if s1.isTorchOn = enable then ⟨.ok (), s1, []⟩
      else if env.accessOk then ⟨.ok (), s1, [Hw.setTorchMode enable]⟩
      else ⟨.error (.accessFailed "Failed to access torch"), s1,
            [Hw.setTorchMode enable]⟩

/-- Kotlin on(): setTorchMode(true). -/
def turnOn (env : Env) (s : St) : ARes := setTorchMode env true s

/-- Kotlin off(): setTorchMode(false). -/
def off (env : Env) (s : St) : ARes := setTorchMode env false s

/-- Kotlin toggle(): setTorchMode(!isTorchOn). -/
def toggle (env : Env) (s : St) : ARes := setTorchMode env (!s.isTorchOn) s

/-- Embedding of TorchCallback.onTorchModeChanged: records the new
power state, always invokes onStateChanged, and on power-off also
invokes onLevelChanged(null) when previousLevel was not already null. -/
def onTorchModeChanged (enabled : Bool) (s : St) : St × List Ev :=
  let s1 := { s with isTorchOn := enabled }
  if enabled = false then
    if s1.previousLevel ≠ none then
      ({ s1 with previousLevel := none },
       [Ev.stateChanged enabled, Ev.levelChanged none])
    else (s1, [Ev.stateChanged enabled])
  else (s1, [Ev.stateChanged enabled])

/-- Embedding of TorchCallback.onTorchStrengthLevelChanged: on API 33+
invokes onLevelChanged only when the reported level differs from
previousLevel. -/
def onTorchStrengthLevelChanged (sdkInt : ℕ) (newStrengthLevel : ℤ)
    (s : St) : St × List Ev :=
  if tiramisu ≤ sdkInt then
    let newLevel : ℚ := (newStrengthLevel : ℚ)
    if s.previousLevel ≠ some newLevel then
      ({ s with previousLevel := some newLevel },
       [Ev.levelChanged (some newLevel)])
    else (s, [])
  else (s, [])

/-- Embedding of Kotlin setLevel(level): API 33 gate, manager and
camera checks, a camera characteristics read for the maximum strength
level, the brightness-control gate, the range check (a raw
IllegalArgumentException), then turnOnTorchWithStrengthLevel with the
level truncated to an integer. -/
def setLevel (env : Env) (level : ℚ) (s : St) : ARes :=
  if env.sdkInt < tiramisu then ⟨.error .apiLevelTooLow, s, []⟩
  else if env.hasManager = false then ⟨.error .cameraServiceUnavailable, s, []⟩
  else
    let s1 := ensureCameraId env s
    match s1.cameraId with
    | none => ⟨.error .noFlashAvailable, s1, []⟩
    | some _ =>
      let maxLevel := env.maxStrengthLevel
      if maxLevel ≤ 1 then
        ⟨.error .brightnessControlNotSupported, s1,
         [Hw.getCameraCharacteristics]⟩
      else if level < 1 ∨ (maxLevel : ℚ) < level then
        ⟨.error (.illegalArgument "Level must be between 1 and maxLevel"), s1,
         [Hw.getCameraCharacteristics]⟩
      else if env.accessOk then
        ⟨.ok (), s1,
         [Hw.getCameraCharacteristics, Hw.turnOnTorchWithStrengthLevel ⌊level⌋]⟩
      else
        ⟨.error (.accessFailed "Failed to access torch"), s1,
         [Hw.getCameraCharacteristics, Hw.turnOnTorchWithStrengthLevel ⌊level⌋]⟩

/-- Embedding of Kotlin getMaxLevel(dynamic): the dynamic flag is
ignored; null below API 33, without a camera, without a manager or on
a characteristics failure; null again when the reported maximum is at
most 1, the reported maximum otherwise. -/
def getMaxLevel (env : Env) (s : St) (dynamic : Option Bool) : Option ℚ :=
  if env.sdkInt < tiramisu then none
  else
    let s1 := ensureCameraId env s
    match s1.cameraId with
    | none => none
    | some _ =>
      if env.hasManager = false then none
      else if env.accessOk = false then none
      else if env.maxStrengthLevel ≤ 1 then none
      else some ((env.maxStrengthLevel : ℚ))

/-- Embedding of Kotlin dispose() on its non-throwing paths: force the
torch off when it is on, then clear the cached camera id and the
last-notified level. -/
def dispose (env : Env) (s : St) : St × List Hw :=
  if s.isTorchOn = true ∧ minApiLevel ≤ env.sdkInt then
    match s.cameraId with
    | some _ =>
      (⟨false, none, none⟩,
       if env.hasManager then [Hw.setTorchMode false] else [])
    | none => ({ s with previousLevel := none, cameraId := none }, [])
  else ({ s with previousLevel := none, cameraId := none }, [])

end Android

namespace Normalizer

/-- The continuous-scale to-native conversion, read off the Swift
source: setLevel divides the discrete level by maxTorchLevel and
setTorchMode clamps the result into the interval from 0.1 to the
thermally limited min(maxAvailableTorchLevel, 1.0). -/
def toNativeContinuous (level : ℚ) (thermalCeiling : ℚ) : ℚ :=
  max (1/10) (min (min thermalCeiling 1) (level / IOS.maxTorchLevel))

/-- The continuous-scale from-native conversion, read off the Swift
source: currentLevel is the native intensity times maxTorchLevel and
the notification path rounds it to the nearest integer. -/
def fromNativeContinuous (v : ℚ) : ℤ := round (v * IOS.maxTorchLevel)

/-- The discrete-scale to-native conversion, read off the Kotlin
source: after range validation the level is passed through unchanged
(Double.toInt on an integral value). -/
def toNativeDiscrete (level : ℤ) : ℤ := level

/-- The discrete-scale from-native conversion, read off the Kotlin
callback: the reported strength level is the discrete level. -/
def fromNativeDiscrete (v : ℤ) : ℤ := v

end Normalizer

namespace JS

/-- A value thrown across the native-to-JS boundary: an Error instance
carrying a message string, or any other JS value rendered through
String(error). -/
inductive Thrown where
  | errObj (message : String)
  | nonError (str : String)
  deriving DecidableEq, Repr

/-- The TorchError record src/utils.ts builds.  The code and message
fields of a successfully JSON-parsed payload may each be absent
(undefined in JS), hence the options. -/
structure TErr where
  message : Option String
  code : Option String
  deriving DecidableEq, Repr

/-- The empty-string-is-falsy default in parseTorchError:
error.message with fallback Unknown error. -/
def orUnknownMsg (m : String) : String :=
  if m = "" then "Unknown error" else m

/-- Embedding of parseTorchError from src/utils.ts.  The two platform
primitives it leans on are passed in: jsonMatch is the regex search
for an embedded payload object and jsonParse is JSON.parse, returning
none exactly when the primitive would throw or find nothing.  The
structure is the source: try the matched substring, else parse the
whole message, and classify as Unknown when parsing throws. -/
def parseTorchError (jsonMatch : String → Option String)
    (jsonParse : String → Option TErr) (message : String) : TErr :=
  let msg := orUnknownMsg message
  match jsonMatch msg with
  | some m =>
    match jsonParse m with
    | some d => ⟨d.message, d.code⟩
    | none => ⟨some msg, some "Unknown"⟩
  | none =>
    match jsonParse msg with
    | some d => ⟨d.message, d.code⟩
    | none => ⟨some msg, some "Unknown"⟩

/-- Embedding of parseAndNormalizeError from src/utils.ts: Error
instances go through parseTorchError, anything else is classified
AccessFailed with its string rendering as the message. -/
def parseAndNormalizeError (jsonMatch : String → Option String)
    (jsonParse : String → Option TErr) (v : Thrown) : TErr :=
  match v with
  | .errObj m => parseTorchError jsonMatch jsonParse m
  | .nonError s => ⟨some s, some "AccessFailed"⟩

end JS

namespace Android

/-- First half of a toggle() call: read isTorchOn and compute the
requested flag, exactly the expression !isTorchOn the Kotlin coroutine
evaluates before entering setTorchMode. -/
def toggleRead (s : St) : Bool := !s.isTorchOn

/-- Second half of a toggle() call: the setTorchMode(enable) body
together with the resulting onTorchModeChanged callback, applied
atomically right after a real hardware call.  No callback fires when
setTorchMode short-circuits or fails. -/
def toggleCommit (env : Env) (enable : Bool) (s : St) : St × List Hw :=
  let r := setTorchMode env enable s
  match r.res with
  | .ok _ =>
    if r.hw = [] then (r.st, r.hw)
    else ((onTorchModeChanged enable r.st).1, r.hw)
  | .error _ => (r.st, r.hw)

/-- Two toggle() calls whose sub-steps overlap: both coroutines read
isTorchOn before either hardware call lands.  This is one interleaving
the unserialized Promise.async implementations allow. -/
def overlappedToggles (env : Env) (s : St) : St × List Hw :=
  let eA := toggleRead s
  let eB := toggleRead s
  let rA := toggleCommit env eA s
  let rB := toggleCommit env eB rA.1
  (rB.1, rA.2 ++ rB.2)

/-- Two toggle() calls run strictly one after the other: the second
read happens only after the first call, hardware callback included,
has completed. -/
def sequentialToggles (env : Env) (s : St) : St × List Hw :=
  let eA := toggleRead s
  let rA := toggleCommit env eA s
  let eB := toggleRead rA.1
  let rB := toggleCommit env eB rA.1
  (rB.1, rA.2 ++ rB.2)

/-- One observable step of the Kotlin instance state: a hardware
torch-mode notification, a hardware strength notification, or a
dispose call.  Every state mutation in HybridTorch.kt happens in one
of these. -/
inductive AStep (env : Env) : St → St → Prop where
  | modeChanged (enabled : Bool) (s : St) :
      AStep env s (onTorchModeChanged enabled s).1
  | strengthChanged (lvl : ℤ) (s : St) :
      AStep env s (onTorchStrengthLevelChanged env.sdkInt lvl s).1
  | disposeStep (s : St) : AStep env s (dispose env s).1

/-- States the Kotlin instance reaches from construction. -/
def AReach (env : Env) : St → Prop :=
  Relation.ReflTransGen (AStep env) initSt

end Android

namespace IOS

/-- One observable step of the Swift instance state: a successful
setTorchMode call (every path of on, off, toggle and setLevel that
mutates state runs through it; failed calls leave the fields
untouched) or a dispose call. -/
inductive IStep (env : Env) : St → St → Prop where
  | mode (enable : Bool) (lvl : Option ℚ) (s : St) (o : Out)
      (h : setTorchMode env enable lvl s = .ok o) : IStep env s o.st
  | disposeStep (s : St) : IStep env s (dispose env s)

/-- States the Swift instance reaches from construction. -/
def IReach (env : Env) : St → Prop :=
  Relation.ReflTransGen (IStep env) initSt

end IOS

/-! Helper lemmas shared by several claims. -/

namespace Android

theorem ensureCameraId_isTorchOn (env : Env) (s : St) :
    (ensureCameraId env s).isTorchOn = s.isTorchOn := by
  unfold ensureCameraId; split_ifs <;> rfl

theorem ensureCameraId_previousLevel (env : Env) (s : St) :
    (ensureCameraId env s).previousLevel = s.previousLevel := by
  unfold ensureCameraId; split_ifs <;> rfl

end Android

namespace IOS

/-- Closed form of a successful off-direction setTorchMode call. -/
theorem off_eq (env : Env) (hd : env.hasDevice = true)
    (ht : env.hasTorch = true) (s : St) :
    off env s = .ok ⟨⟨false, s.currentLevel, none⟩,
      (if s.isTorchOn then [Ev.stateChanged false] else []) ++
      (if s.previousLevel.isSome then [Ev.levelChanged none] else []),
      [Hw.torchOff]⟩ := by
  unfold off setTorchMode
  rw [hd, ht]
  rcases hp : s.previousLevel with _ | p <;> rcases hon : s.isTorchOn <;>
    simp [hp, hon]

/-- On every successful setTorchMode call the resulting power flag is
the requested one and the stored previousLevel is some value exactly
when the torch was switched on. -/
theorem setTorchMode_ok_state (env : Env) (e : Bool) (lvl : Option ℚ)
    (s : St) (o : Out) (h : setTorchMode env e lvl s = .ok o) :
    o.st.isTorchOn = e ∧ o.st.previousLevel.isSome = e := by
  unfold setTorchMode at h
  split at h
  · exact absurd h (by simp)
  split at h
  · exact absurd h (by simp)
  rcases hp : s.previousLevel with _ | p <;> cases e <;>
    simp only [hp, Option.map_some', Option.map_none', Bool.false_eq_true,
      if_true, if_false] at h <;>
    split at h <;>
    · injection h with h
      subst h
      simp_all

end IOS

namespace Android

/-- When the cached power state already matches the request,
setTorchMode returns without any hardware call. -/
theorem setTorchMode_short_circuit (env : Env) (s : St) (e : Bool)
    (he : s.isTorchOn = e) : (setTorchMode env e s).hw = [] := by
  unfold setTorchMode
  split
  · rfl
  split
  · rfl
  dsimp only
  cases hc : (ensureCameraId env s).cameraId with
  | none => rfl
  | some c => rw [if_pos (by rw [ensureCameraId_isTorchOn]; exact he)]

/-- ensureCameraId is the identity once a camera id is cached. -/
theorem ensureCameraId_isSome (env : Env) (s : St)
    (h : s.cameraId.isSome) : ensureCameraId env s = s := by
  unfold ensureCameraId; rw [if_pos h]

/-- The mode callback always records exactly the reported power
state. -/
theorem onTorchModeChanged_isTorchOn (e : Bool) (s : St) :
    (onTorchModeChanged e s).1.isTorchOn = e := by
  unfold onTorchModeChanged
  rcases s with ⟨b, _ | p, cid⟩ <;> cases e <;> rfl

/-- Closed form of a setTorchMode call that reaches the hardware: all
gates pass and the cached state differs from the request. -/
theorem setTorchMode_go (env : Env) (s : St) (e : Bool)
    (hm : env.hasManager = true) (hsdk : minApiLevel ≤ env.sdkInt)
    (hacc : env.accessOk = true) (c : ℕ)
    (hc : (ensureCameraId env s).cameraId = some c)
    (hne : s.isTorchOn ≠ e) :
    setTorchMode env e s =
      ⟨.ok (), ensureCameraId env s, [Hw.setTorchMode e]⟩ := by
  unfold setTorchMode
  rw [if_neg (by simp [hm]), if_neg (Nat.not_lt.mpr hsdk)]
  dsimp only
  rw [hc]
  rw [if_neg (by rw [ensureCameraId_isTorchOn]; exact hne), if_pos hacc]

/-- Closed form of setLevel once the API-level gate, the camera
manager and the camera id have been checked. -/
theorem setLevel_eq_of (env : Env) (s : St) (level : ℚ)
    (hsdk : tiramisu ≤ env.sdkInt) (hm : env.hasManager = true)
    (c : ℕ) (hc : (ensureCameraId env s).cameraId = some c) :
    setLevel env level s =
      if env.maxStrengthLevel ≤ 1 then
        ⟨.error .brightnessControlNotSupported, ensureCameraId env s,
         [Hw.getCameraCharacteristics]⟩
      else if level < 1 ∨ (env.maxStrengthLevel : ℚ) < level then
        ⟨.error (.illegalArgument "Level must be between 1 and maxLevel"),
         ensureCameraId env s, [Hw.getCameraCharacteristics]⟩
      else if env.accessOk then
        ⟨.ok (), ensureCameraId env s,
         [Hw.getCameraCharacteristics, Hw.turnOnTorchWithStrengthLevel ⌊level⌋]⟩
      else
        ⟨.error (.accessFailed "Failed to access torch"), ensureCameraId env s,
         [Hw.getCameraCharacteristics, Hw.turnOnTorchWithStrengthLevel ⌊level⌋]⟩ := by
  unfold setLevel
  rw [if_neg (Nat.not_lt.mpr hsdk), if_neg (by simp [hm])]
  dsimp only
  rw [hc]

end Android

namespace IOS

/-- dispose preserves the power-level coupling invariant. -/
theorem dispose_inv (env : Env) (s : St)
    (ih : s.isTorchOn = false ↔ s.previousLevel = none) :
    (dispose env s).isTorchOn = false ↔
      (dispose env s).previousLevel = none := by
  unfold dispose
  split_ifs with hon
  · cases hm : setTorchMode env false none s with
    | ok o =>
        obtain ⟨h1, h2⟩ := setTorchMode_ok_state _ _ _ _ _ hm
        simp [h1]
    | error err => exact ih
  · simp [Bool.not_eq_true] at hon
    simp [hon]

end IOS

end Torch

section Claims
open Torch

/-- Claim C1: level-normalization round-trip.  For every maxLevel of
at least 1 and every integer level L in [1, maxLevel], converting L to
the native representation with thermal ceiling 1.0 and back yields
exactly L on both scale kinds.  The discrete scale passes levels
through unchanged for any maxLevel; the continuous scale has the
platform constant 10 as its maxLevel, so every level of its range,
that is L at most 10, divides to L/10, survives the clamp into
[0.1, 1.0] unchanged and rounds back to exactly L. -/
theorem C1_round_trip (maxLevel L : ℤ) (h1 : 1 ≤ L) (h2 : L ≤ maxLevel) :
    Normalizer.fromNativeDiscrete (Normalizer.toNativeDiscrete L) = L ∧
    (L ≤ 10 →
      Normalizer.fromNativeContinuous
        (Normalizer.toNativeContinuous (L : ℚ) 1) = L) := by
  refine ⟨rfl, fun h10 => ?_⟩
  have hL1 : (1 : ℚ) ≤ (L : ℚ) := by exact_mod_cast h1
  have hL10 : (L : ℚ) ≤ 10 := by exact_mod_cast h10
  unfold Normalizer.fromNativeContinuous Normalizer.toNativeContinuous
    IOS.maxTorchLevel
  rw [min_self]
  rw [min_eq_right ((div_le_one (by norm_num : (0:ℚ) < 10)).mpr hL10)]
  rw [max_eq_right (by gcongr)]
  rw [div_mul_cancel₀ _ (by norm_num : (10:ℚ) ≠ 0)]
  exact round_intCast L

/-- Claim C1 witness: the round-trip evaluated at maxLevel 10 and
level 7 on both scale kinds. -/
theorem C1_witness :
    Normalizer.fromNativeDiscrete (Normalizer.toNativeDiscrete 7) = 7 ∧
    ((7:ℤ) ≤ 10 →
      Normalizer.fromNativeContinuous
        (Normalizer.toNativeContinuous ((7:ℤ) : ℚ) 1) = 7) :=
  C1_round_trip 10 7 (by norm_num) (by norm_num)

/-- Claim C2 counterexample: on the discrete (Android) implementation
a call to off() made while the internal state already records the
torch as off short-circuits and issues no hardware call at all,
refuting the claim that every off() call invokes the adapter off
primitive. -/
theorem C2_counterexample :
    Android.off ⟨33, true, some 0, 10, true⟩ Android.initSt =
      ⟨.ok (), ⟨false, none, some 0⟩, []⟩ := by
  norm_num [Android.off, Android.setTorchMode, Android.initSt,
    Android.ensureCameraId, Android.minApiLevel]

/-- Claim C2 (amended): the continuous (iOS) implementation of off()
always issues the hardware off call, even when internal state already
records the torch as off, and raises the stateChanged notification
exactly when the internal state actually changes; the discrete
(Android) implementation instead short-circuits and issues no
hardware off call when its internal state already records off. -/
theorem C2_defensive_off (env : IOS.Env) (s : IOS.St)
    (hd : env.hasDevice = true) (ht : env.hasTorch = true)
    (aenv : Android.Env) (as : Android.St) (hoff : as.isTorchOn = false) :
    (∃ o : IOS.Out, IOS.off env s = .ok o ∧ o.hw = [IOS.Hw.torchOff] ∧
       (Ev.stateChanged false ∈ o.evs ↔ s.isTorchOn = true)) ∧
    (Android.off aenv as).hw = [] := by
  constructor
  · refine ⟨_, IOS.off_eq env hd ht s, rfl, ?_⟩
    cases hon : s.isTorchOn <;>
      rcases hp : s.previousLevel with _ | p <;> simp [hon, hp]
  · exact Android.setTorchMode_short_circuit aenv as false hoff

/-- Claim C2 witness: the amended claim evaluated on a present device
with both controllers in their initial off state. -/
theorem C2_witness :
    (∃ o : IOS.Out, IOS.off ⟨true, true, 1⟩ ⟨false, 1, none⟩ = .ok o ∧
       o.hw = [IOS.Hw.torchOff] ∧
       (Ev.stateChanged false ∈ o.evs ↔
         (⟨false, 1, none⟩ : IOS.St).isTorchOn = true)) ∧
    (Android.off ⟨33, true, some 0, 10, true⟩ Android.initSt).hw = [] :=
  C2_defensive_off ⟨true, true, 1⟩ ⟨false, 1, none⟩ rfl rfl
    ⟨33, true, some 0, 10, true⟩ Android.initSt rfl

/-- Claim C3: from any state with the torch on and a last-notified
level, a successful off() fires stateChanged(false) and then
levelChanged(none), in that order, exactly once each: on iOS the event
list of the call is exactly those two events, and on Android the event
list of the hardware onTorchModeChanged(false) callback the off() call
triggers is exactly those two events. -/
theorem C3_off_clears_level (env : IOS.Env) (s : IOS.St) (L : ℚ)
    (hd : env.hasDevice = true) (ht : env.hasTorch = true)
    (hon : s.isTorchOn = true) (hp : s.previousLevel = some L)
    (as : Android.St) (aL : ℚ) (hap : as.previousLevel = some aL) :
    (∃ o : IOS.Out, IOS.off env s = .ok o ∧
       o.evs = [Ev.stateChanged false, Ev.levelChanged none]) ∧
    (Android.onTorchModeChanged false as).2 =
      [Ev.stateChanged false, Ev.levelChanged none] := by
  constructor
  · exact ⟨_, IOS.off_eq env hd ht s, by simp [hon, hp]⟩
  · simp [Android.onTorchModeChanged, hap]

/-- Claim C3 witness: turning off from On(7) on both controllers. -/
theorem C3_witness :
    (∃ o : IOS.Out, IOS.off ⟨true, true, 1⟩ ⟨true, 7, some 7⟩ = .ok o ∧
       o.evs = [Ev.stateChanged false, Ev.levelChanged none]) ∧
    (Android.onTorchModeChanged false ⟨true, some 7, some 0⟩).2 =
      [Ev.stateChanged false, Ev.levelChanged none] :=
  C3_off_clears_level ⟨true, true, 1⟩ ⟨true, 7, some 7⟩ 7 rfl rfl rfl rfl
    ⟨true, some 7, some 0⟩ 7 rfl

/-- Claim C4: issuing setLevel(5) twice in a row from a state whose
last-notified level is not already 5 fires levelChanged exactly once,
on the first call only.  On iOS both calls succeed, the first emits
exactly one levelChanged event and the second emits none; on Android
the strength callback the first hardware call echoes back fires
levelChanged once, and an identical echo after the second call is
deduplicated to nothing. -/
theorem C4_dedup (env : IOS.Env) (hd : env.hasDevice = true)
    (ht : env.hasTorch = true) (s0 : IOS.St)
    (hprev : s0.previousLevel.map (fun p => ((round p : ℤ) : ℚ)) ≠ some 5)
    (sdk : ℕ) (hsdk : Android.tiramisu ≤ sdk)
    (as : Android.St) (hap : as.previousLevel ≠ some 5) :
    (∃ o1 o2 : IOS.Out,
      IOS.setLevel env 5 s0 = .ok o1 ∧
      IOS.setLevel env 5 o1.st = .ok o2 ∧
      o1.evs.filter Ev.isLevel = [Ev.levelChanged (some 5)] ∧
      o2.evs.filter Ev.isLevel = []) ∧
    ((Android.onTorchStrengthLevelChanged sdk 5 as).2 =
        [Ev.levelChanged (some 5)] ∧
      (Android.onTorchStrengthLevelChanged sdk 5
         (Android.onTorchStrengthLevelChanged sdk 5 as).1).2 = []) := by
  constructor
  · have h1 : IOS.setLevel env 5 s0 =
        .ok ⟨⟨true, 5, some 5⟩,
          (if s0.isTorchOn ≠ true then [Ev.stateChanged true] else []) ++
            [Ev.levelChanged (some 5)],
          [IOS.Hw.setTorchModeOn
            (max (1/10) (min (min env.maxAvailableTorchLevel 1)
              (5 / IOS.maxTorchLevel)))]⟩ := by
      unfold IOS.setLevel IOS.setTorchMode
      rw [if_pos (by norm_num [IOS.maxTorchLevel]), hd, ht]
      norm_num [IOS.maxTorchLevel, hprev]
    have h2 : IOS.setLevel env 5 (⟨true, 5, some 5⟩ : IOS.St) =
        .ok ⟨⟨true, 5, some 5⟩, [],
          [IOS.Hw.setTorchModeOn
            (max (1/10) (min (min env.maxAvailableTorchLevel 1)
              (5 / IOS.maxTorchLevel)))]⟩ := by
      unfold IOS.setLevel IOS.setTorchMode
      rw [if_pos (by norm_num [IOS.maxTorchLevel]), hd, ht]
      norm_num [IOS.maxTorchLevel]
    refine ⟨_, _, h1, h2, ?_, by simp [Ev.isLevel]⟩
    cases hon : s0.isTorchOn <;> simp [hon, Ev.isLevel]
  · constructor
    · simp [Android.onTorchStrengthLevelChanged, hsdk, hap]
    · simp [Android.onTorchStrengthLevelChanged, hsdk, hap]

/-- Claim C4 witness: two setLevel(5) calls from the initial off state
on both controllers. -/
theorem C4_witness :
    (∃ o1 o2 : IOS.Out,
      IOS.setLevel ⟨true, true, 1⟩ 5 IOS.initSt = .ok o1 ∧
      IOS.setLevel ⟨true, true, 1⟩ 5 o1.st = .ok o2 ∧
      o1.evs.filter Ev.isLevel = [Ev.levelChanged (some 5)] ∧
      o2.evs.filter Ev.isLevel = []) ∧
    ((Android.onTorchStrengthLevelChanged 33 5 Android.initSt).2 =
        [Ev.levelChanged (some 5)] ∧
      (Android.onTorchStrengthLevelChanged 33 5
         (Android.onTorchStrengthLevelChanged 33 5 Android.initSt).1).2 = []) :=
  C4_dedup ⟨true, true, 1⟩ rfl rfl IOS.initSt (by simp [IOS.initSt])
    33 (le_refl 33) Android.initSt (by simp [Android.initSt])

/-- Claim C5 counterexample: on the continuous (iOS) implementation,
setLevel(0) fails through the TorchError.failed branch, whose
serialized error kind is AccessFailed, not InvalidArgument. -/
theorem C5_counterexample :
    IOS.setLevel ⟨true, true, 1⟩ 0 IOS.initSt =
      .error (.failed "Level must be between 1 and 10") ∧
    IOS.IosErr.code (.failed "Level must be between 1 and 10") =
      "AccessFailed" ∧
    "AccessFailed" ≠ "InvalidArgument" := by
  refine ⟨?_, rfl, by decide⟩
  norm_num [IOS.setLevel, IOS.maxTorchLevel]

/-- Claim C5 (amended): setLevel(0) and setLevel(maxLevel+1) are both
rejected before any torch-driving hardware call on either platform,
but not with an InvalidArgument kind and not before every hardware
interaction: the continuous (iOS) implementation rejects them locally
with the AccessFailed kind, while the discrete (Android)
implementation first reads the camera characteristics and then throws
a raw invalid-argument exception, issuing no set-level call. -/
theorem C5_out_of_range (env : IOS.Env) (s : IOS.St)
    (aenv : Android.Env) (as : Android.St)
    (hsdk : Android.tiramisu ≤ aenv.sdkInt) (hm : aenv.hasManager = true)
    (c : ℕ) (hc : (Android.ensureCameraId aenv as).cameraId = some c)
    (hmax : 2 ≤ aenv.maxStrengthLevel) :
    (IOS.setLevel env 0 s =
        .error (.failed "Level must be between 1 and 10") ∧
      IOS.setLevel env (IOS.maxTorchLevel + 1) s =
        .error (.failed "Level must be between 1 and 10")) ∧
    ((Android.setLevel aenv 0 as).res =
        .error (.illegalArgument "Level must be between 1 and maxLevel") ∧
      (Android.setLevel aenv 0 as).hw =
        [Android.Hw.getCameraCharacteristics] ∧
      (Android.setLevel aenv ((aenv.maxStrengthLevel : ℚ) + 1) as).res =
        .error (.illegalArgument "Level must be between 1 and maxLevel") ∧
      (Android.setLevel aenv ((aenv.maxStrengthLevel : ℚ) + 1) as).hw =
        [Android.Hw.getCameraCharacteristics]) := by
  have hng : ¬ aenv.maxStrengthLevel ≤ 1 := by omega
  have h0 : Android.setLevel aenv 0 as =
      ⟨.error (.illegalArgument "Level must be between 1 and maxLevel"),
       Android.ensureCameraId aenv as,
       [Android.Hw.getCameraCharacteristics]⟩ := by
    rw [Android.setLevel_eq_of aenv as 0 hsdk hm c hc, if_neg hng,
      if_pos (Or.inl (by norm_num))]
  have hover : ((aenv.maxStrengthLevel : ℚ) <
      (aenv.maxStrengthLevel : ℚ) + 1) := by norm_num
  have h1 : Android.setLevel aenv ((aenv.maxStrengthLevel : ℚ) + 1) as =
      ⟨.error (.illegalArgument "Level must be between 1 and maxLevel"),
       Android.ensureCameraId aenv as,
       [Android.Hw.getCameraCharacteristics]⟩ := by
    rw [Android.setLevel_eq_of aenv as _ hsdk hm c hc, if_neg hng,
      if_pos (Or.inr hover)]
  refine ⟨⟨?_, ?_⟩, by rw [h0], by rw [h0], by rw [h1], by rw [h1]⟩
  · norm_num [IOS.setLevel, IOS.maxTorchLevel]
  · norm_num [IOS.setLevel, IOS.maxTorchLevel]

/-- Claim C5 witness: the amended claim at maxLevel 10 with
setLevel(0) and setLevel(11) on both platforms. -/
theorem C5_witness :
    (IOS.setLevel ⟨true, true, 1⟩ 0 ⟨false, 1, none⟩ =
        .error (.failed "Level must be between 1 and 10") ∧
      IOS.setLevel ⟨true, true, 1⟩ (IOS.maxTorchLevel + 1) ⟨false, 1, none⟩ =
        .error (.failed "Level must be between 1 and 10")) ∧
    ((Android.setLevel ⟨33, true, some 0, 10, true⟩ 0 Android.initSt).res =
        .error (.illegalArgument "Level must be between 1 and maxLevel") ∧
      (Android.setLevel ⟨33, true, some 0, 10, true⟩ 0 Android.initSt).hw =
        [Android.Hw.getCameraCharacteristics] ∧
      (Android.setLevel ⟨33, true, some 0, 10, true⟩
          (((10:ℤ) : ℚ) + 1) Android.initSt).res =
        .error (.illegalArgument "Level must be between 1 and maxLevel") ∧
      (Android.setLevel ⟨33, true, some 0, 10, true⟩
          (((10:ℤ) : ℚ) + 1) Android.initSt).hw =
        [Android.Hw.getCameraCharacteristics]) :=
  C5_out_of_range ⟨true, true, 1⟩ ⟨false, 1, none⟩
    ⟨33, true, some 0, 10, true⟩ Android.initSt (le_refl 33) rfl 0
    (by simp [Android.ensureCameraId, Android.initSt]) (by norm_num)

/-- Claim C6: whenever the hardware-reported maximum strength level is
at most 1, every setLevel call on the discrete (Android)
implementation fails with BrightnessControlNotSupported and issues no
torch-driving hardware call, only the characteristics read. -/
theorem C6_brightness_gate (env : Android.Env) (s : Android.St) (level : ℚ)
    (hsdk : Android.tiramisu ≤ env.sdkInt) (hm : env.hasManager = true)
    (c : ℕ) (hc : (Android.ensureCameraId env s).cameraId = some c)
    (hmax : env.maxStrengthLevel ≤ 1) :
    (Android.setLevel env level s).res =
      .error .brightnessControlNotSupported ∧
    (Android.setLevel env level s).hw =
      [Android.Hw.getCameraCharacteristics] := by
  rw [Android.setLevel_eq_of env s level hsdk hm c hc, if_pos hmax]
  exact ⟨rfl, rfl⟩

/-- Claim C6 witness: setLevel(1) on a device reporting maximum
strength level 1. -/
theorem C6_witness :
    (Android.setLevel ⟨33, true, some 0, 1, true⟩ 1 Android.initSt).res =
      .error .brightnessControlNotSupported ∧
    (Android.setLevel ⟨33, true, some 0, 1, true⟩ 1 Android.initSt).hw =
      [Android.Hw.getCameraCharacteristics] :=
  C6_brightness_gate ⟨33, true, some 0, 1, true⟩ Android.initSt 1
    (le_refl 33) rfl 0 (by simp [Android.ensureCameraId, Android.initSt])
    (le_refl 1)

/-- Claim C7 counterexample: with thermal ceiling 0.73 the continuous
implementation returns 7.3 from getMaxLevel(true), while the claimed
formula round(min(thermalCeiling, 1.0) * maxLevel) gives 7; the code
applies no rounding. -/
theorem C7_counterexample :
    IOS.getMaxLevel ⟨true, true, 73/100⟩ (some true) = some (73/10) ∧
    ((round (min (73/100 : ℚ) 1 * IOS.maxTorchLevel) : ℤ) : ℚ) = 7 ∧
    (73/10 : ℚ) ≠ 7 := by
  refine ⟨?_, ?_, by norm_num⟩
  · norm_num [IOS.getMaxLevel, IOS.maxTorchLevel]
  · norm_num [IOS.maxTorchLevel, round_eq]

/-- Claim C7 (amended): on the continuous (iOS) implementation,
getMaxLevel(true) returns min(thermalCeiling, 1.0) * maxLevel with no
rounding applied (which equals 5 when the ceiling is 0.5 and maxLevel
is 10), any other argument returns the fixed maximum 10, and a device
without torch capability returns none; the discrete (Android)
implementation returns none whenever the hardware-reported maximum is
at most 1, for every value of the dynamic flag. -/
theorem C7_get_max_level (env : IOS.Env)
    (hd : env.hasDevice = true) (ht : env.hasTorch = true)
    (env2 : IOS.Env) (hnt : env2.hasTorch = false)
    (d : Option Bool) (hdn : d ≠ some true) (d2 : Option Bool)
    (aenv : Android.Env) (as : Android.St)
    (hmax : aenv.maxStrengthLevel ≤ 1) (ad : Option Bool) :
    IOS.getMaxLevel env (some true) =
      some (min env.maxAvailableTorchLevel 1 * IOS.maxTorchLevel) ∧
    IOS.getMaxLevel env d = some IOS.maxTorchLevel ∧
    IOS.getMaxLevel env2 d2 = none ∧
    Android.getMaxLevel aenv as ad = none := by
  refine ⟨?_, ?_, ?_, ?_⟩
  · simp [IOS.getMaxLevel, hd, ht]
  · simp [IOS.getMaxLevel, hd, ht, hdn]
  · simp [IOS.getMaxLevel, hnt]
  · unfold Android.getMaxLevel
    split
    · rfl
    dsimp only
    cases hc : (Android.ensureCameraId aenv as).cameraId with
    | none => rfl
    | some c =>
        split_ifs <;> simp_all

/-- Claim C7 witness: ceiling 0.5 gives exactly 5 dynamically and 10
statically, a torchless device and an unsupported discrete device give
none. -/
theorem C7_witness :
    (IOS.getMaxLevel ⟨true, true, 1/2⟩ (some true) =
        some (min (1/2 : ℚ) 1 * IOS.maxTorchLevel) ∧
      IOS.getMaxLevel ⟨true, true, 1/2⟩ (some false) =
        some IOS.maxTorchLevel ∧
      IOS.getMaxLevel ⟨true, false, 1⟩ none = none ∧
      Android.getMaxLevel ⟨33, true, some 0, 1, true⟩ Android.initSt none =
        none) ∧
    min (1/2 : ℚ) 1 * IOS.maxTorchLevel = 5 :=
  ⟨C7_get_max_level ⟨true, true, 1/2⟩ rfl rfl ⟨true, false, 1⟩ rfl
      (some false) (by simp) none ⟨33, true, some 0, 1, true⟩ Android.initSt
      (le_refl 1) none,
    by norm_num [IOS.maxTorchLevel]⟩

/-- Claim C8 counterexample: a non-Error thrown value (the plain
string rendered as boom) is classified AccessFailed by
parseAndNormalizeError, not Unknown, refuting the claim that every
value whose content does not parse as the structured shape is
classified Unknown. -/
theorem C8_counterexample :
    JS.parseAndNormalizeError (fun _ => none) (fun _ => none)
      (.nonError "boom") = ⟨some "boom", some "AccessFailed"⟩ ∧
    (some "AccessFailed" : Option String) ≠ some "Unknown" :=
  ⟨rfl, by simp⟩

/-- Claim C8 (amended): every thrown value receives some
classification: an Error whose message neither contains a matchable
embedded payload nor JSON-parses is classified Unknown, while a
non-Error thrown value is classified AccessFailed rather than
Unknown. -/
theorem C8_unknown_catch_all (jsonMatch : String → Option String)
    (jsonParse : String → Option JS.TErr) (m s : String)
    (hmatch : jsonMatch (JS.orUnknownMsg m) = none)
    (hparse : jsonParse (JS.orUnknownMsg m) = none) :
    (JS.parseAndNormalizeError jsonMatch jsonParse (.errObj m)).code =
      some "Unknown" ∧
    (JS.parseAndNormalizeError jsonMatch jsonParse (.nonError s)).code =
      some "AccessFailed" := by
  constructor
  · simp [JS.parseAndNormalizeError, JS.parseTorchError, hmatch, hparse]
  · rfl

/-- Claim C8 witness: with a never-matching pattern and a
never-succeeding parser, an Error with message boom maps to Unknown
and a thrown plain string maps to AccessFailed. -/
theorem C8_witness :
    (JS.parseAndNormalizeError (fun _ => none) (fun _ => none)
        (.errObj "boom")).code = some "Unknown" ∧
    (JS.parseAndNormalizeError (fun _ => none) (fun _ => none)
        (.nonError "oops")).code = some "AccessFailed" :=
  C8_unknown_catch_all (fun _ => none) (fun _ => none) "boom" "oops" rfl rfl

/-- Claim C9 counterexample: on the discrete (Android) controller the
state with the torch on and no last-notified level is reachable by a
single hardware mode notification (exactly what an on() call
triggers), so the claimed equivalence between being off and having no
current level does not hold in every reachable state. -/
theorem C9_counterexample :
    Android.AReach ⟨33, true, some 0, 10, true⟩ ⟨true, none, none⟩ ∧
    ¬ ((⟨true, none, none⟩ : Android.St).isTorchOn = false ↔
       (⟨true, none, none⟩ : Android.St).previousLevel = none) := by
  constructor
  · exact Relation.ReflTransGen.single
      (Android.AStep.modeChanged true Android.initSt)
  · simp

/-- Claim C9 (amended): on the continuous (iOS) controller the
coupling invariant holds in every reachable state: the torch is
recorded off exactly when the last-notified level is none.  The
discrete (Android) controller does not satisfy the claim: a mode
notification can turn the torch on before any strength notification
arrives, leaving the power flag true with no level recorded. -/
theorem C9_state_level_coupling (env : IOS.Env) (s : IOS.St)
    (h : IOS.IReach env s) :
    s.isTorchOn = false ↔ s.previousLevel = none := by
  induction h with
  | refl => simp [IOS.initSt]
  | tail hr hstep ih =>
      cases hstep with
      | mode e lvl s2 o hmode =>
          obtain ⟨h1, h2⟩ := IOS.setTorchMode_ok_state _ _ _ _ _ hmode
          rw [h1, ← h2]
          cases o.st.previousLevel <;> simp
      | disposeStep s2 => exact IOS.dispose_inv env _ ih

/-- Claim C9 witness: the invariant at the reachable state reached by
one successful turn-on from the initial state. -/
theorem C9_witness :
    (⟨true, 1, some 1⟩ : IOS.St).isTorchOn = false ↔
      (⟨true, 1, some 1⟩ : IOS.St).previousLevel = none :=
  C9_state_level_coupling ⟨true, true, 1⟩ ⟨true, 1, some 1⟩
    (Relation.ReflTransGen.single
      (IOS.IStep.mode true none IOS.initSt
        ⟨⟨true, 1, some 1⟩,
         [Ev.stateChanged true, Ev.levelChanged (some 1)],
         [IOS.Hw.setTorchModeOn (1/10)]⟩
        (by norm_num [IOS.setTorchMode, IOS.initSt, IOS.maxTorchLevel]
            simp)))

/-- Claim C10 counterexample: the implementations have no FIFO queue,
and in the overlapped interleaving where both toggle() calls read the
initial off state before either hardware call lands, the device ends
On, not Off as the claim requires. -/
theorem C10_counterexample :
    (Android.overlappedToggles ⟨33, true, some 0, 10, true⟩
        Android.initSt).1.isTorchOn = true ∧
    (Android.overlappedToggles ⟨33, true, some 0, 10, true⟩
        Android.initSt).2 = [Android.Hw.setTorchMode true] := by
  constructor <;>
    norm_num [Android.overlappedToggles, Android.toggleRead,
      Android.toggleCommit, Android.setTorchMode, Android.onTorchModeChanged,
      Android.initSt, Android.ensureCameraId, Android.minApiLevel]

/-- Claim C10 (amended): the mutating operations are issued through
unqueued asynchronous calls, so nothing serializes them; when two
toggle() calls from an initially-off device happen to run without
overlap, each completing with its hardware callback before the next
begins, the device does end Off after exactly the two hardware calls,
but an overlapped interleaving can instead leave the device On. -/
theorem C10_no_serialization (env : Android.Env) (s : Android.St)
    (hm : env.hasManager = true) (hsdk : Android.minApiLevel ≤ env.sdkInt)
    (hacc : env.accessOk = true) (c : ℕ)
    (hc : (Android.ensureCameraId env s).cameraId = some c)
    (hoff : s.isTorchOn = false) :
    (Android.sequentialToggles env s).1.isTorchOn = false ∧
    (Android.sequentialToggles env s).2 =
      [Android.Hw.setTorchMode true, Android.Hw.setTorchMode false] := by
  have h1 : Android.toggleCommit env true s =
      ({Android.ensureCameraId env s with isTorchOn := true},
       [Android.Hw.setTorchMode true]) := by
    unfold Android.toggleCommit
    rw [Android.setTorchMode_go env s true hm hsdk hacc c hc
      (by simp [hoff])]
    simp [Android.onTorchModeChanged]
  have hs2 : ({Android.ensureCameraId env s with isTorchOn := true} :
      Android.St).cameraId = some c := hc
  have he2 : Android.ensureCameraId env
      ({Android.ensureCameraId env s with isTorchOn := true}) =
      {Android.ensureCameraId env s with isTorchOn := true} :=
    Android.ensureCameraId_isSome env _ (by rw [hs2]; rfl)
  have h2 : Android.toggleCommit env false
      ({Android.ensureCameraId env s with isTorchOn := true}) =
      ((Android.onTorchModeChanged false
          ({Android.ensureCameraId env s with isTorchOn := true})).1,
       [Android.Hw.setTorchMode false]) := by
    unfold Android.toggleCommit
    rw [Android.setTorchMode_go env _ false hm hsdk hacc c
      (by rw [he2]; exact hs2) (by simp), he2]
    simp
  unfold Android.sequentialToggles Android.toggleRead
  rw [hoff]
  simp only [Bool.not_false, h1, Bool.not_true]
  rw [h2]
  simp [Android.onTorchModeChanged_isTorchOn]

/-- Claim C10 witness: the two non-overlapping toggles evaluated on a
concrete present device from the initial off state. -/
theorem C10_witness :
    (Android.sequentialToggles ⟨33, true, some 0, 10, true⟩
        Android.initSt).1.isTorchOn = false ∧
    (Android.sequentialToggles ⟨33, true, some 0, 10, true⟩
        Android.initSt).2 =
      [Android.Hw.setTorchMode true, Android.Hw.setTorchMode false] :=
  C10_no_serialization ⟨33, true, some 0, 10, true⟩ Android.initSt rfl
    (by norm_num [Android.minApiLevel]) rfl 0
    (by simp [Android.ensureCameraId, Android.initSt]) rfl

end Claims

